import Mathlib

/-
Verification of the FLAML tune sampling module (flaml/tune/sample.py):
Domain / Sampler composition model for hyperparameter search spaces.

Modelling conventions (shallow embedding):
* Python floats are modelled as rationals together with the two infinity
  sentinels produced by float("-inf") and float("inf"); NaN is not modelled.
* The process-wide pseudorandom generators (np.random.uniform,
  np.random.randint, np.random.normal, random.choices) are modelled by an
  explicit stream `rng : Nat → ℚ` of draws.  For the uniform generators the
  entries are unit draws in [0, 1); for the normal generator the entries are
  standard normal draws (unconstrained rationals).
* Exceptions are modelled with Except; Python methods that mutate `self`
  are modelled as functions returning the post-state of the receiver
  together with the result (the receiver post-state equals the argument
  exactly when the source method contains no assignment to `self`).
* The `spec` parameter of sample() is an opaque pass-through in the source
  (never read by any sampler), so it is dropped from the model.
-/

namespace Flaml

/-- Model of a Python float value as used for domain bounds: a rational
number, or one of the infinities float("-inf") / float("inf"). -/
inductive PyFloat where
  | ninf
  | fin (q : ℚ)
  | pinf
deriving DecidableEq

/-- Strict comparison of modelled Python floats. -/
def PyFloat.lt : PyFloat → PyFloat → Bool
  | .ninf, .ninf => false
  | .ninf, _ => true
  | .fin _, .ninf => false
  | .fin a, .fin b => decide (a < b)
  | .fin _, .pinf => true
  | .pinf, _ => false

/-- Whether the float is finite (not an infinity). -/
def PyFloat.isFin : PyFloat → Bool
  | .fin _ => true
  | _ => false

/-- The rational value of a finite float (junk value 0 on the infinities;
all uses are guarded by finiteness or comparison checks). -/
def PyFloat.toQ : PyFloat → ℚ
  | .fin q => q
  | _ => 0

/-- Python truthiness of a float: 0.0 is falsy, every other float
(including the infinities) is truthy. -/
def PyFloat.truthy : PyFloat → Bool
  | .fin q => !(q == 0)
  | _ => true

/-- Model of math.isclose(a, b) with the default rel_tol=1e-9, abs_tol=0:
abs(a-b) <= rel_tol * max(abs(a), abs(b)). -/
def isclose (a b : ℚ) : Bool :=
  decide (|a - b| ≤ 1 / 1000000000 * max |a| |b|)

/-- Round half to even (banker's rounding), the rounding used by Python's
round() and by np.round. -/
def roundHalfEven (x : ℚ) : ℤ :=
  if x - ⌊x⌋ < 1 / 2 then ⌊x⌋
  else if 1 / 2 < x - ⌊x⌋ then ⌊x⌋ + 1
  else if ⌊x⌋ % 2 = 0 then ⌊x⌋ else ⌊x⌋ + 1

/-- The check isclose(x, round(x)) used by Float.quantized: x is, within
floating tolerance, an integer. -/
def closeToInt (x : ℚ) : Bool :=
  isclose x (roundHalfEven x : ℚ)

/-- Python's int(value) on a float value: truncation toward zero. -/
def truncQ (x : ℚ) : ℤ :=
  if 0 ≤ x then ⌊x⌋ else ⌈x⌉

/-- The Python exceptions the module can raise, by raise/assert site. -/
inductive PyError where
  | samplerAlreadySet
  | uniformRequiresLowerBound
  | uniformRequiresUpperBound
  | logUniformRequiresLowerBound
  | logUniformRequiresUpperBound
  | assertBasePositive
  | assertSdPositive
  | assertUniformNeedsLowerBound
  | assertUniformNeedsUpperBound
  | assertLogUniformLower
  | assertLogUniformUpper
  | assertNormalNoLowerBound
  | assertNormalNoUpperBound
  | notDivisibleLower
  | notDivisibleUpper
  | zeroDivisionError
  | indexError
  | typeError
  | npRandintLowGeHigh
deriving DecidableEq

/-- A Python value as returned by sample(): a float scalar, an int scalar,
an ndarray of floats / list, an ndarray of ints, or the RuntimeError
object that Grid.sample returns (it is returned, not raised). -/
inductive PyVal where
  | float (q : ℚ)
  | int (n : ℤ)
  | list (xs : List ℚ)
  | intList (xs : List ℤ)
  | runtimeErrorGrid
deriving DecidableEq

/-- The integer values carried by a sample result. -/
def PyVal.intValues : PyVal → List ℤ
  | .int n => [n]
  | .intList xs => xs
  | _ => []

/-- The sampler objects of the module: the nested per-domain sampler
classes, the Grid sentinel, and the Quantized wrapper. -/
inductive SamplerD where
  | uniformF
  | logUniformF (base : ℚ)
  | normalF (mean sd : ℚ)
  | uniformI
  | logUniformI (base : ℚ)
  | uniformC
  | grid
  | quantized (inner : SamplerD) (q : ℚ)
deriving DecidableEq

/-- The per-type data of a Domain: Float bounds, Integer bounds, or the
category list of a Categorical (category values modelled as rationals). -/
inductive DomData where
  | floatD (lower upper : PyFloat)
  | intD (lower upper : ℤ)
  | catD (cats : List ℚ)
deriving DecidableEq

/-- A Domain object: its per-type data plus the at-most-one attached
sampler (class attribute default None). -/
structure Dom where
  data : DomData
  sampler : Option SamplerD
deriving DecidableEq

/-- Domain.cast by subclass: Float casts to float, Integer truncates to
int, the base-class identity cast is used by Categorical. -/
def Dom.cast (d : Dom) (v : ℚ) : PyVal :=
  match d.data with
  | .floatD _ _ => .float v
  | .intD _ _ => .int (truncQ v)
  | .catD _ => .float v

/-- The default_sampler_cls of each Domain subclass (the nested _Uniform). -/
def Dom.default_sampler : Dom → SamplerD
  | ⟨.floatD _ _, _⟩ => .uniformF
  | ⟨.intD _ _, _⟩ => .uniformI
  | ⟨.catD _, _⟩ => .uniformC

/-- Domain.get_sampler: the attached sampler, or a fresh default. -/
def Dom.get_sampler (d : Dom) : SamplerD :=
  d.sampler.getD d.default_sampler

/-- Domain.set_sampler: raises ValueError when a sampler is already
attached and override is not allowed (leaving the field unchanged),
otherwise stores the new sampler.  Returns (post-state of the sampler
field, result). -/
def set_sampler (cur : Option SamplerD) (s : SamplerD) (allowOverride : Bool) :
    Option SamplerD × Except PyError Unit :=
  if cur.isSome = true ∧ allowOverride = false then (cur, .error .samplerAlreadySet)
  else (some s, .ok ())

/-- Modelled log-uniform draw.  The source computes
base ** uniform(log(lower)/log(base), log(upper)/log(base)); the
transcendental transform is left abstract and the draw is represented by
the raw unit draw itself (no claim depends on the numeric value). -/
def logUniformDraw (_base _lo _hi u : ℚ) : ℚ := u

/-- The trailing collapse of every sample body over float draws:
`items if len(items) > 1 else domain.cast(items[0])` (an empty draw
raises IndexError at items[0]). -/
def collapseF (d : Dom) (items : List ℚ) : Except PyError PyVal :=
  if 1 < items.length then .ok (.list items)
  else
    match items with
    | [] => .error .indexError
    | v :: _ => .ok (d.cast v)

/-- The same collapse over integer draws (np.random.randint arrays). -/
def collapseI (d : Dom) (items : List ℤ) : Except PyError PyVal :=
  if 1 < items.length then .ok (.intList items)
  else
    match items with
    | [] => .error .indexError
    | v :: _ => .ok (d.cast (v : ℚ))

/-- Quantized.sample after the delegated draw: np.round(values / q) * q,
then domain.cast when the result is a scalar (not an ndarray), else the
list of quantized values with no per-element cast.  np.divide on the
RuntimeError object Grid returns would raise TypeError. -/
def quantizeVal (d : Dom) (q : ℚ) : PyVal → Except PyError PyVal
  | .float v => .ok (d.cast ((roundHalfEven (v / q) : ℚ) * q))
  | .int n => .ok (d.cast ((roundHalfEven ((n : ℚ) / q) : ℚ) * q))
  | .list xs => .ok (.list (xs.map fun v => (roundHalfEven (v / q) : ℚ) * q))
  | .intList xs => .ok (.list (xs.map fun v => (roundHalfEven ((v : ℚ) / q) : ℚ) * q))
  | .runtimeErrorGrid => .error .typeError

/-- Sampler.sample dispatch over all sampler objects.  Each nested
per-domain sampler reads the fields of its own domain subclass; applying
it to another subclass (impossible through the builder API) is modelled
as a TypeError. -/
def SamplerD.sample : SamplerD → Dom → Nat → (Nat → ℚ) → Except PyError PyVal
  | .uniformF, d, size, rng =>
    match d.data with
    | .floatD lo hi =>
      if PyFloat.lt .ninf lo = false then .error .assertUniformNeedsLowerBound
      else if PyFloat.lt hi .pinf = false then .error .assertUniformNeedsUpperBound
      else collapseF d ((List.range size).map fun i => lo.toQ + rng i * (hi.toQ - lo.toQ))
    | _ => .error .typeError
  | .logUniformF _base, d, size, rng =>
    match d.data with
    | .floatD lo hi =>
      if PyFloat.lt (.fin 0) lo = false then .error .assertLogUniformLower
      else if ¬ (PyFloat.lt (.fin 0) hi = true ∧ PyFloat.lt hi .pinf = true) then
        .error .assertLogUniformUpper
      else collapseF d ((List.range size).map fun i => logUniformDraw _base lo.toQ hi.toQ (rng i))
    | _ => .error .typeError
  | .normalF mean sd, d, size, rng =>
    match d.data with
    | .floatD lo hi =>
      if ¬ (lo.truthy = false ∨ lo = .ninf) then .error .assertNormalNoLowerBound
      else if ¬ (hi.truthy = false ∨ hi = .pinf) then .error .assertNormalNoUpperBound
      else collapseF d ((List.range size).map fun i => mean + sd * rng i)
    | _ => .error .typeError
  | .uniformI, d, size, rng =>
    match d.data with
    | .intD lo hi =>
      if hi ≤ lo then .error .npRandintLowGeHigh
      else collapseI d ((List.range size).map fun i => lo + ⌊rng i * ((hi - lo : ℤ) : ℚ)⌋)
    | _ => .error .typeError
  | .logUniformI _base, d, size, rng =>
    match d.data with
    | .intD lo hi =>
      if ¬ (0 < lo) then .error .assertLogUniformLower
      else if ¬ (0 < hi) then .error .assertLogUniformUpper
      else collapseI d
        ((List.range size).map fun i => roundHalfEven (logUniformDraw _base lo hi (rng i)))
    | _ => .error .typeError
  | .uniformC, d, size, rng =>
    match d.data with
    | .catD cats =>
      if cats.isEmpty = true then .error .indexError
      else collapseF d
        ((List.range size).map fun i => cats.getD (⌊rng i * (cats.length : ℚ)⌋).toNat 0)
    | _ => .error .typeError
  | .grid, _, _, _ => .ok .runtimeErrorGrid
  | .quantized inner q, d, size, rng =>
    match inner.sample d size rng with
    | .error e => .error e
    | .ok values => quantizeVal d q values

/-- Domain.sample as a method: reads get_sampler() and delegates; the
method writes no field of self, so the receiver post-state is self. -/
def Dom.sampleM (d : Dom) (size : Nat) (rng : Nat → ℚ) : Dom × Except PyError PyVal :=
  (d, (d.get_sampler).sample d size rng)

/-- Float.__init__(lower, upper): None becomes the matching infinity. -/
def Float.init (lower upper : Option PyFloat) : Dom :=
  ⟨.floatD (lower.getD .ninf) (upper.getD .pinf), none⟩

/-- Float.uniform(): bound checks, then copy(self) and set_sampler on the
copy; returns (receiver post-state, result). -/
def Float.uniform (d : Dom) : Dom × Except PyError Dom :=
  match d.data with
  | .floatD lo hi =>
    if PyFloat.lt .ninf lo = false then (d, .error .uniformRequiresLowerBound)
    else if PyFloat.lt hi .pinf = false then (d, .error .uniformRequiresUpperBound)
    else
      match set_sampler d.sampler .uniformF false with
      | (_, .error e) => (d, .error e)
      | (s, .ok _) => (d, .ok { d with sampler := s })
  | _ => (d, .error .typeError)

/-- Float.loguniform(base): bound checks, the base assertion of
LogUniform.__init__, then copy and set_sampler on the copy. -/
def Float.loguniform (d : Dom) (base : ℚ) : Dom × Except PyError Dom :=
  match d.data with
  | .floatD lo hi =>
    if PyFloat.lt (.fin 0) lo = false then (d, .error .logUniformRequiresLowerBound)
    else if ¬ (PyFloat.lt (.fin 0) hi = true ∧ PyFloat.lt hi .pinf = true) then
      (d, .error .logUniformRequiresUpperBound)
    else if ¬ (0 < base) then (d, .error .assertBasePositive)
    else
      match set_sampler d.sampler (.logUniformF base) false with
      | (_, .error e) => (d, .error e)
      | (s, .ok _) => (d, .ok { d with sampler := s })
  | _ => (d, .error .typeError)

/-- Float.normal(mean, sd): no bound check at construction; only the
sd assertion of Normal.__init__, then copy and set_sampler on the copy. -/
def Float.normal (d : Dom) (mean sd : ℚ) : Dom × Except PyError Dom :=
  match d.data with
  | .floatD _ _ =>
    if ¬ (0 < sd) then (d, .error .assertSdPositive)
    else
      match set_sampler d.sampler (.normalF mean sd) false with
      | (_, .error e) => (d, .error e)
      | (s, .ok _) => (d, .ok { d with sampler := s })
  | _ => (d, .error .typeError)

/-- Float.quantized(q): for each finite bound, bound / q must be close to
round(bound / q) (a finite bound with q = 0 raises ZeroDivisionError at
the division); then copy and set_sampler(Quantized(get_sampler(), q),
allow_override=True) on the copy.  (Float.__init__ never produces a
lower bound of +inf or an upper bound of -inf, so finiteness coincides
with the source's comparisons against the opposite infinity.) -/
def Float.quantized (d : Dom) (q : ℚ) : Dom × Except PyError Dom :=
  match d.data with
  | .floatD lo hi =>
    if lo.isFin = true ∧ q = 0 then (d, .error .zeroDivisionError)
    else if lo.isFin = true ∧ closeToInt (lo.toQ / q) = false then
      (d, .error .notDivisibleLower)
    else if hi.isFin = true ∧ q = 0 then (d, .error .zeroDivisionError)
    else if hi.isFin = true ∧ closeToInt (hi.toQ / q) = false then
      (d, .error .notDivisibleUpper)
    else
      match set_sampler d.sampler (.quantized d.get_sampler q) true with
      | (_, .error e) => (d, .error e)
      | (s, .ok _) => (d, .ok { d with sampler := s })
  | _ => (d, .error .typeError)

/-- Integer.__init__(lower, upper). -/
def Integer.init (lower upper : ℤ) : Dom :=
  ⟨.intD lower upper, none⟩

/-- Integer.uniform(): no checks; copy and set_sampler on the copy. -/
def Integer.uniform (d : Dom) : Dom × Except PyError Dom :=
  match d.data with
  | .intD _ _ =>
    match set_sampler d.sampler .uniformI false with
    | (_, .error e) => (d, .error e)
    | (s, .ok _) => (d, .ok { d with sampler := s })
  | _ => (d, .error .typeError)

/-- Integer.loguniform(base): bound checks (an integer upper bound is
always below +inf), the base assertion, then copy and set_sampler. -/
def Integer.loguniform (d : Dom) (base : ℚ) : Dom × Except PyError Dom :=
  match d.data with
  | .intD lo hi =>
    if ¬ (0 < lo) then (d, .error .logUniformRequiresLowerBound)
    else if ¬ (0 < hi) then (d, .error .logUniformRequiresUpperBound)
    else if ¬ (0 < base) then (d, .error .assertBasePositive)
    else
      match set_sampler d.sampler (.logUniformI base) false with
      | (_, .error e) => (d, .error e)
      | (s, .ok _) => (d, .ok { d with sampler := s })
  | _ => (d, .error .typeError)

/-- Integer.quantized(q): no divisibility pre-check; copy and
set_sampler(Quantized(get_sampler(), q), allow_override=True). -/
def Integer.quantized (d : Dom) (q : ℚ) : Dom × Except PyError Dom :=
  match d.data with
  | .intD _ _ =>
    match set_sampler d.sampler (.quantized d.get_sampler q) true with
    | (_, .error e) => (d, .error e)
    | (s, .ok _) => (d, .ok { d with sampler := s })
  | _ => (d, .error .typeError)

/-- Categorical.__init__(categories). -/
def Categorical.init (cats : List ℚ) : Dom :=
  ⟨.catD cats, none⟩

/-- Categorical.uniform(): copy and set_sampler on the copy. -/
def Categorical.uniform (d : Dom) : Dom × Except PyError Dom :=
  match d.data with
  | .catD _ =>
    match set_sampler d.sampler .uniformC false with
    | (_, .error e) => (d, .error e)
    | (s, .ok _) => (d, .ok { d with sampler := s })
  | _ => (d, .error .typeError)

/-- Module-level uniform(lower, upper) = Float(lower, upper).uniform(). -/
def uniform (lower upper : ℚ) : Except PyError Dom :=
  (Float.uniform (Float.init (some (.fin lower)) (some (.fin upper)))).2

/-- Module-level quniform(lower, upper, q) =
Float(lower, upper).uniform().quantized(q). -/
def quniform (lower upper q : ℚ) : Except PyError Dom :=
  match uniform lower upper with
  | .error e => .error e
  | .ok d => (Float.quantized d q).2

/-- Module-level randint(lower, upper) = Integer(lower, upper).uniform(). -/
def randint (lower upper : ℤ) : Except PyError Dom :=
  (Integer.uniform (Integer.init lower upper)).2

/-- The rounding of x is its floor or its floor plus one. -/
theorem roundHalfEven_eq_floor_or (x : ℚ) :
    roundHalfEven x = ⌊x⌋ ∨ roundHalfEven x = ⌊x⌋ + 1 := by
  unfold roundHalfEven
  split_ifs <;> simp

/-- int() of an integer-valued float is that integer. -/
theorem truncQ_intCast (n : ℤ) : truncQ (n : ℚ) = n := by
  unfold truncQ
  split_ifs <;> simp


/-- C1: the claim says sample() on a Grid-attached domain always raises and
never returns normally.  In the code, Grid.sample executes
`return RuntimeError(...)` instead of `raise`, so the call returns normally
with the RuntimeError object as its value, for every domain, size and rng. -/
theorem C1_grid_sample_returns_normally (dd : DomData) (size : Nat) (rng : Nat → ℚ) :
    (Dom.sampleM ⟨dd, some .grid⟩ size rng).2 = .ok .runtimeErrorGrid := rfl

/-- C2 counterexample: Float(0, 10).normal() does not fail at construction;
it returns a domain with the Normal sampler attached. -/
theorem C2_normal_construction_succeeds :
    (Float.normal (Float.init (some (.fin 0)) (some (.fin 10))) 0 1).2 =
      .ok ⟨.floatD (.fin 0) (.fin 10), some (.normalF 0 1)⟩ := by
  norm_num [Float.normal, Float.init, set_sampler]

/-- C2 amended: normal(mean, sd) performs no bound check at construction;
Float(0, 10).normal(mean, sd) succeeds for any sd > 0, and the bound check
is deferred to sample time, where the AssertionError for the bounded upper
bound is raised. -/
theorem C2_normal_check_deferred_to_sample_time (mean sd : ℚ) (hsd : 0 < sd)
    (size : Nat) (rng : Nat → ℚ) :
    ∃ d : Dom,
      (Float.normal (Float.init (some (.fin 0)) (some (.fin 10))) mean sd).2 = .ok d ∧
      (d.sampleM size rng).2 = .error .assertNormalNoUpperBound := by
  refine ⟨⟨.floatD (.fin 0) (.fin 10), some (.normalF mean sd)⟩, ?_, ?_⟩
  · simp [Float.normal, Float.init, set_sampler, hsd.not_le]
  · norm_num [Dom.sampleM, Dom.get_sampler, SamplerD.sample, PyFloat.truthy]
    intro h
    exact absurd h (by simp)

/-- C2 witness: the deferred check at mean 0, sd 1, size 1. -/
theorem C2_witness :
    ∃ d : Dom,
      (Float.normal (Float.init (some (.fin 0)) (some (.fin 10))) 0 1).2 = .ok d ∧
      (d.sampleM 1 (fun _ => 0)).2 = .error .assertNormalNoUpperBound :=
  C2_normal_check_deferred_to_sample_time 0 1 (by norm_num) 1 (fun _ => 0)

/-- C3: Quantized.sample delegates the raw draw to the wrapped sampler
(propagating its exception), then rounds value / q and multiplies by q
elementwise; a scalar result is passed through domain.cast, while a
sequence result is returned as the quantized list with no per-element
cast to the domain's native type. -/
theorem C3_quantized_delegates_and_casts_scalar_only (inner : SamplerD) (q : ℚ)
    (hq : q ≠ 0) (d : Dom) (size : Nat) (rng : Nat → ℚ) :
    (∀ e, inner.sample d size rng = .error e →
      (SamplerD.quantized inner q).sample d size rng = .error e) ∧
    (∀ v, inner.sample d size rng = .ok (.float v) →
      (SamplerD.quantized inner q).sample d size rng =
        .ok (d.cast ((roundHalfEven (v / q) : ℚ) * q))) ∧
    (∀ n, inner.sample d size rng = .ok (.int n) →
      (SamplerD.quantized inner q).sample d size rng =
        .ok (d.cast ((roundHalfEven ((n : ℚ) / q) : ℚ) * q))) ∧
    (∀ xs, inner.sample d size rng = .ok (.list xs) →
      (SamplerD.quantized inner q).sample d size rng =
        .ok (.list (xs.map fun v => (roundHalfEven (v / q) : ℚ) * q))) ∧
    (∀ xs, inner.sample d size rng = .ok (.intList xs) →
      (SamplerD.quantized inner q).sample d size rng =
        .ok (.list (xs.map fun v => (roundHalfEven ((v : ℚ) / q) : ℚ) * q))) := by
  refine ⟨fun e he => ?_, fun v hv => ?_, fun n hn => ?_, fun xs hxs => ?_,
    fun xs hxs => ?_⟩ <;>
    simp [SamplerD.sample, quantizeVal, *]

/-- C3 witness: the scalar case through a Float uniform draw with q = 1. -/
theorem C3_quantized_witness :
    (SamplerD.quantized .uniformF 1).sample ⟨.floatD (.fin 0) (.fin 10), none⟩ 1
        (fun _ => 0) =
      .ok ((⟨.floatD (.fin 0) (.fin 10), none⟩ : Dom).cast
        ((roundHalfEven ((0 : ℚ) / 1) : ℚ) * 1)) :=
  (C3_quantized_delegates_and_casts_scalar_only .uniformF 1 (by norm_num)
    ⟨.floatD (.fin 0) (.fin 10), none⟩ 1 (fun _ => 0)).2.1 0
    (by norm_num [SamplerD.sample, collapseF, Dom.cast, PyFloat.lt, PyFloat.toQ])

/-- C10: on Float(0, None).normal(mean, sd) (and on Float(None, 0)), the
sample-time bound check tests truthiness, so the bound 0 is treated as
absent: sample(size=1) succeeds and returns a float scalar. -/
theorem C10_normal_zero_bound_is_falsy (mean sd : ℚ) (hsd : 0 < sd) (rng : Nat → ℚ) :
    (∃ d : Dom,
      (Float.normal (Float.init (some (.fin 0)) none) mean sd).2 = .ok d ∧
      (d.sampleM 1 rng).2 = .ok (.float (mean + sd * rng 0))) ∧
    (∃ d : Dom,
      (Float.normal (Float.init none (some (.fin 0))) mean sd).2 = .ok d ∧
      (d.sampleM 1 rng).2 = .ok (.float (mean + sd * rng 0))) := by
  constructor
  · refine ⟨⟨.floatD (.fin 0) .pinf, some (.normalF mean sd)⟩, ?_, ?_⟩
    · simp [Float.normal, Float.init, set_sampler, hsd.not_le]
    · norm_num [Dom.sampleM, Dom.get_sampler, SamplerD.sample, PyFloat.truthy,
        collapseF, Dom.cast, List.range_succ, List.range_zero]
  · refine ⟨⟨.floatD .ninf (.fin 0), some (.normalF mean sd)⟩, ?_, ?_⟩
    · simp [Float.normal, Float.init, set_sampler, hsd.not_le]
    · norm_num [Dom.sampleM, Dom.get_sampler, SamplerD.sample, PyFloat.truthy,
        collapseF, Dom.cast, List.range_succ, List.range_zero]

/-- C10 witness: mean 0, sd 1, a zero rng stream. -/
theorem C10_witness :
    (∃ d : Dom,
      (Float.normal (Float.init (some (.fin 0)) none) 0 1).2 = .ok d ∧
      (d.sampleM 1 (fun _ => 0)).2 = .ok (.float (0 + 1 * (fun _ : Nat => (0:ℚ)) 0))) ∧
    (∃ d : Dom,
      (Float.normal (Float.init none (some (.fin 0))) 0 1).2 = .ok d ∧
      (d.sampleM 1 (fun _ => 0)).2 = .ok (.float (0 + 1 * (fun _ : Nat => (0:ℚ)) 0))) :=
  C10_normal_zero_bound_is_falsy 0 1 (by norm_num) (fun _ => 0)

/-- Evaluation of the Integer _Uniform sampler body when lower < upper. -/
theorem uniformI_sample_eval (lo hi : ℤ) (hlt : lo < hi) (s : Option SamplerD)
    (size : Nat) (rng : Nat → ℚ) :
    SamplerD.sample .uniformI ⟨.intD lo hi, s⟩ size rng =
      collapseI ⟨.intD lo hi, s⟩
        ((List.range size).map fun i => lo + ⌊rng i * ((hi - lo : ℤ) : ℚ)⌋) := by
  simp [SamplerD.sample, if_neg (not_le.mpr hlt)]

/-- Evaluation of the Float _Uniform sampler body on finite bounds. -/
theorem uniformF_sample_eval (lo hi : ℚ) (s : Option SamplerD) (size : Nat)
    (rng : Nat → ℚ) :
    SamplerD.sample .uniformF ⟨.floatD (.fin lo) (.fin hi), s⟩ size rng =
      collapseF ⟨.floatD (.fin lo) (.fin hi), s⟩
        ((List.range size).map fun i => lo + rng i * (hi - lo)) := by
  simp [SamplerD.sample, PyFloat.lt, PyFloat.toQ]

/-- Bounds of one modelled np.random.randint draw: lower inclusive, upper
exclusive. -/
theorem randint_draw_bounds (lo hi : ℤ) (h : lo < hi) (u : ℚ) (h0 : 0 ≤ u) (h1 : u < 1) :
    lo ≤ lo + ⌊u * ((hi - lo : ℤ) : ℚ)⌋ ∧ lo + ⌊u * ((hi - lo : ℤ) : ℚ)⌋ < hi := by
  have hc : (0 : ℚ) < ((hi - lo : ℤ) : ℚ) := by
    exact_mod_cast Int.sub_pos.mpr h
  constructor
  · have hnn : (0 : ℤ) ≤ ⌊u * ((hi - lo : ℤ) : ℚ)⌋ :=
      Int.floor_nonneg.mpr (mul_nonneg h0 hc.le)
    omega
  · have hlt : u * ((hi - lo : ℤ) : ℚ) < ((hi - lo : ℤ) : ℚ) :=
      mul_lt_of_lt_one_left hc h1
    have hfl : ⌊u * ((hi - lo : ℤ) : ℚ)⌋ < hi - lo := Int.floor_lt.mpr hlt
    omega

/-- C4: every value produced by Integer(lower, upper).uniform().sample via
randint, for any size, is an integer v with lower ≤ v < upper (upper
exclusive). -/
theorem C4_randint_half_open (lo hi : ℤ) (h : lo < hi) (size : Nat) (rng : Nat → ℚ)
    (hrng : ∀ n, 0 ≤ rng n ∧ rng n < 1) (d : Dom) (hd : randint lo hi = .ok d)
    (r : PyVal) (hr : (d.sampleM size rng).2 = .ok r) :
    (∀ v ∈ r.intValues, lo ≤ v ∧ v < hi) ∧
      ((∃ n, r = .int n) ∨ (∃ xs, r = .intList xs)) := by
  simp [randint, Integer.uniform, Integer.init, set_sampler] at hd
  subst hd
  have hst : (Dom.sampleM ⟨.intD lo hi, some .uniformI⟩ size rng).2 =
      SamplerD.sample .uniformI ⟨.intD lo hi, some .uniformI⟩ size rng := rfl
  rw [hst, uniformI_sample_eval lo hi h] at hr
  by_cases hbig : 1 < size
  · rw [collapseI.eq_def, if_pos (by simpa [List.length_range] using hbig)] at hr
    have hx := Except.ok.inj hr
    subst hx
    refine ⟨?_, Or.inr ⟨_, rfl⟩⟩
    intro v hv
    simp only [PyVal.intValues, List.mem_map, List.mem_range] at hv
    obtain ⟨i, _, rfl⟩ := hv
    exact randint_draw_bounds lo hi h (rng i) (hrng i).1 (hrng i).2
  · rcases size with _ | size
    · simp [collapseI] at hr
    · rcases size with _ | size
      · rw [collapseI.eq_def, if_neg (by simp)] at hr
        simp only [List.range_succ, List.range_zero, List.nil_append, List.map_cons,
          List.map_nil, Dom.cast, truncQ_intCast] at hr
        have hx := Except.ok.inj hr
        subst hx
        refine ⟨?_, Or.inl ⟨_, rfl⟩⟩
        intro v hv
        simp only [PyVal.intValues, List.mem_singleton] at hv
        subst hv
        exact randint_draw_bounds lo hi h (rng 0) (hrng 0).1 (hrng 0).2
      · omega

/-- C4 witness: Integer(0, 10) at size 1 with the constant draw 1/2. -/
theorem C4_witness :
    (∀ v ∈ (PyVal.int 5).intValues, (0:ℤ) ≤ v ∧ v < 10) ∧
      ((∃ n, PyVal.int 5 = .int n) ∨ (∃ xs, PyVal.int 5 = .intList xs)) :=
  C4_randint_half_open 0 10 (by norm_num) 1 (fun _ => 1/2)
    (fun _ => ⟨by norm_num, by norm_num⟩) ⟨.intD 0 10, some .uniformI⟩
    (by norm_num [randint, Integer.uniform, Integer.init, set_sampler])
    (.int 5)
    (by norm_num [Dom.sampleM, Dom.get_sampler, SamplerD.sample, collapseI,
      List.range_succ, List.range_zero, Dom.cast, truncQ])

/-- Bounds of one modelled np.random.uniform draw inside [lower, upper]. -/
theorem uniform_draw_bounds (lo hi u : ℚ) (h : lo ≤ hi) (h0 : 0 ≤ u) (h1 : u < 1) :
    lo ≤ lo + u * (hi - lo) ∧ lo + u * (hi - lo) ≤ hi := by
  constructor
  · nlinarith
  · nlinarith

/-- C5: for finite lo ≤ hi, Float(lo, hi).uniform().sample returns a single
float scalar within [lo, hi] at size 1, and at size N > 1 a list of exactly
N values all within [lo, hi]. -/
theorem C5_float_uniform_sample (lo hi : ℚ) (h : lo ≤ hi) (rng : Nat → ℚ)
    (hrng : ∀ n, 0 ≤ rng n ∧ rng n < 1) (d : Dom) (hd : uniform lo hi = .ok d) :
    (∃ v, (d.sampleM 1 rng).2 = .ok (.float v) ∧ lo ≤ v ∧ v ≤ hi) ∧
    (∀ size, 1 < size → ∃ xs, (d.sampleM size rng).2 = .ok (.list xs) ∧
      xs.length = size ∧ ∀ v ∈ xs, lo ≤ v ∧ v ≤ hi) := by
  simp [uniform, Float.uniform, Float.init, set_sampler, PyFloat.lt] at hd
  subst hd
  constructor
  · refine ⟨lo + rng 0 * (hi - lo), ?_, ?_⟩
    · have hst : (Dom.sampleM ⟨.floatD (.fin lo) (.fin hi), some .uniformF⟩ 1 rng).2 =
        SamplerD.sample .uniformF ⟨.floatD (.fin lo) (.fin hi), some .uniformF⟩ 1 rng := rfl
      rw [hst, uniformF_sample_eval]
      simp [collapseF, List.range_succ, List.range_zero, Dom.cast]
    · exact uniform_draw_bounds lo hi (rng 0) h (hrng 0).1 (hrng 0).2
  · intro size hbig
    refine ⟨(List.range size).map fun i => lo + rng i * (hi - lo), ?_, ?_, ?_⟩
    · have hst : (Dom.sampleM ⟨.floatD (.fin lo) (.fin hi), some .uniformF⟩ size rng).2 =
        SamplerD.sample .uniformF ⟨.floatD (.fin lo) (.fin hi), some .uniformF⟩ size rng := rfl
      rw [hst, uniformF_sample_eval, collapseF.eq_def,
        if_pos (by simpa [List.length_range] using hbig)]
    · simp [List.length_range]
    · intro v hv
      simp only [List.mem_map, List.mem_range] at hv
      obtain ⟨i, _, rfl⟩ := hv
      exact uniform_draw_bounds lo hi (rng i) h (hrng i).1 (hrng i).2

/-- C5 witness: Float(0, 10) with the constant draw 1/2, sizes 1 and 2. -/
theorem C5_witness :
    (∃ v, ((⟨.floatD (.fin 0) (.fin 10), some .uniformF⟩ : Dom).sampleM 1
        (fun _ => 1/2)).2 = .ok (.float v) ∧ (0:ℚ) ≤ v ∧ v ≤ 10) ∧
    (∀ size, 1 < size → ∃ xs,
      ((⟨.floatD (.fin 0) (.fin 10), some .uniformF⟩ : Dom).sampleM size
        (fun _ => 1/2)).2 = .ok (.list xs) ∧
      xs.length = size ∧ ∀ v ∈ xs, (0:ℚ) ≤ v ∧ v ≤ 10) :=
  C5_float_uniform_sample 0 10 (by norm_num) (fun _ => 1/2)
    (fun _ => ⟨by norm_num, by norm_num⟩) ⟨.floatD (.fin 0) (.fin 10), some .uniformF⟩
    (by norm_num [uniform, Float.uniform, Float.init, set_sampler, PyFloat.lt])

/-- Definitional evaluation of the Quantized wrapper arm of sample. -/
theorem quantized_sample_eq (inner : SamplerD) (q : ℚ) (d : Dom) (size : Nat)
    (rng : Nat → ℚ) :
    (SamplerD.quantized inner q).sample d size rng =
      match inner.sample d size rng with
      | .error e => .error e
      | .ok values => quantizeVal d q values := by
  simp [SamplerD.sample]

/-- C6: Float(0, 10).uniform().quantized(2.5).sample(size=1) always yields a
value in the set 0, 2.5, 5, 7.5, 10. -/
theorem C6_quantized_value_set (rng : Nat → ℚ) (hrng : ∀ n, 0 ≤ rng n ∧ rng n < 1) :
    ∃ (d : Dom) (v : ℚ),
      quniform 0 10 (5/2) = .ok d ∧
      (d.sampleM 1 rng).2 = .ok (.float v) ∧
      (v = 0 ∨ v = 5/2 ∨ v = 5 ∨ v = 15/2 ∨ v = 10) := by
  refine ⟨⟨.floatD (.fin 0) (.fin 10), some (.quantized .uniformF (5/2))⟩,
    (roundHalfEven ((0 + rng 0 * (10 - 0)) / (5/2)) : ℚ) * (5/2), ?_, ?_, ?_⟩
  · norm_num [quniform, uniform, Float.uniform, Float.init, Float.quantized,
      set_sampler, PyFloat.lt, PyFloat.isFin, PyFloat.toQ, closeToInt, isclose,
      roundHalfEven, Dom.get_sampler, Dom.default_sampler]
  · have hst : ((⟨.floatD (.fin 0) (.fin 10), some (.quantized .uniformF (5/2))⟩ :
        Dom).sampleM 1 rng).2 =
        SamplerD.sample (.quantized .uniformF (5/2))
          ⟨.floatD (.fin 0) (.fin 10), some (.quantized .uniformF (5/2))⟩ 1 rng := rfl
    have hin : SamplerD.sample .uniformF
        ⟨.floatD (.fin 0) (.fin 10), some (.quantized .uniformF (5/2))⟩ 1 rng =
        .ok (.float (0 + rng 0 * (10 - 0))) := by
      rw [uniformF_sample_eval]
      simp [collapseF, List.range_succ, List.range_zero, Dom.cast]
    rw [hst, quantized_sample_eq, hin]
    simp [quantizeVal, Dom.cast]
  · have h0 := (hrng 0).1
    have h1 := (hrng 0).2
    set x := (0 + rng 0 * (10 - 0)) / (5/2) with hxdef
    have hx0 : 0 ≤ x := by
      rw [hxdef]
      apply div_nonneg _ (by norm_num)
      nlinarith
    have hx4 : x < 4 := by
      rw [hxdef, div_lt_iff₀ (by norm_num : (0:ℚ) < 5/2)]
      nlinarith
    have hfl0 : 0 ≤ ⌊x⌋ := Int.floor_nonneg.mpr hx0
    have hfl4 : ⌊x⌋ < 4 := Int.floor_lt.mpr (by exact_mod_cast hx4)
    have hnb : 0 ≤ roundHalfEven x ∧ roundHalfEven x ≤ 4 := by
      rcases roundHalfEven_eq_floor_or x with hn | hn <;> omega
    set n := roundHalfEven x with hndef
    obtain ⟨hn0, hn4⟩ := hnb
    interval_cases n <;> norm_num

/-- C6 witness: the zero rng stream draws 0, quantized to 0. -/
theorem C6_witness :
    ∃ (d : Dom) (v : ℚ),
      quniform 0 10 (5/2) = .ok d ∧
      (d.sampleM 1 (fun _ => 0)).2 = .ok (.float v) ∧
      (v = 0 ∨ v = 5/2 ∨ v = 5 ∨ v = 15/2 ∨ v = 10) :=
  C6_quantized_value_set (fun _ => 0) (fun _ => ⟨by norm_num, by norm_num⟩)

/-- C7: for a Float built from optional finite bounds, quantized(q) fails
exactly when some given (finite) bound divided by q is not within floating
tolerance of an integer; absent (infinite) bounds are never checked.
Float(0, 9).quantized(3) succeeds and Float(1, 10).quantized(3) fails. -/
theorem C7_quantized_divisibility_iff (lo hi : Option ℚ) (q : ℚ) (hq : q ≠ 0) :
    ((∃ e, (Float.quantized (Float.init (lo.map .fin) (hi.map .fin)) q).2 = .error e) ↔
      (∃ a, lo = some a ∧ closeToInt (a / q) = false) ∨
      (∃ b, hi = some b ∧ closeToInt (b / q) = false)) ∧
    (Float.quantized (Float.init (some (.fin 0)) (some (.fin 9))) 3).2 =
      .ok ⟨.floatD (.fin 0) (.fin 9), some (.quantized .uniformF 3)⟩ ∧
    (Float.quantized (Float.init (some (.fin 1)) (some (.fin 10))) 3).2 =
      .error .notDivisibleLower := by
  refine ⟨?_, ?_, ?_⟩
  · rcases lo with _ | a <;> rcases hi with _ | b
    · simp [Float.quantized, Float.init, set_sampler, PyFloat.isFin]
    · rcases Bool.eq_false_or_eq_true (closeToInt (b / q)) with hcb | hcb <;>
        simp [Float.quantized, Float.init, set_sampler, PyFloat.isFin, PyFloat.toQ,
          hq, hcb]
    · rcases Bool.eq_false_or_eq_true (closeToInt (a / q)) with hca | hca <;>
        simp [Float.quantized, Float.init, set_sampler, PyFloat.isFin, PyFloat.toQ,
          hq, hca]
    · rcases Bool.eq_false_or_eq_true (closeToInt (a / q)) with hca | hca <;>
        rcases Bool.eq_false_or_eq_true (closeToInt (b / q)) with hcb | hcb <;>
        simp [Float.quantized, Float.init, set_sampler, PyFloat.isFin, PyFloat.toQ,
          hq, hca, hcb]
  · norm_num [Float.quantized, Float.init, set_sampler, PyFloat.isFin, PyFloat.toQ,
      closeToInt, isclose, roundHalfEven, Dom.get_sampler, Dom.default_sampler]
  · norm_num [Float.quantized, Float.init, set_sampler, PyFloat.isFin, PyFloat.toQ,
      closeToInt, isclose, roundHalfEven]

/-- C7 witness: the iff instantiated at Float(1, 10).quantized(3). -/
theorem C7_witness :
    ((∃ e, (Float.quantized (Float.init ((some (1:ℚ)).map .fin)
        ((some (10:ℚ)).map .fin)) 3).2 = .error e) ↔
      (∃ a, (some (1:ℚ)) = some a ∧ closeToInt (a / 3) = false) ∨
      (∃ b, (some (10:ℚ)) = some b ∧ closeToInt (b / 3) = false)) ∧
    (Float.quantized (Float.init (some (.fin 0)) (some (.fin 9))) 3).2 =
      .ok ⟨.floatD (.fin 0) (.fin 9), some (.quantized .uniformF 3)⟩ ∧
    (Float.quantized (Float.init (some (.fin 1)) (some (.fin 10))) 3).2 =
      .error .notDivisibleLower :=
  C7_quantized_divisibility_iff (some 1) (some 10) 3 (by norm_num)

/-- C8: set_sampler refuses a second sampler without the override flag and
leaves the attached sampler in place; loguniform() after uniform() on
Float(1, 10) fails that way with the receiver unchanged; quantized() is
allowed to override by wrapping the existing sampler. -/
theorem C8_second_sampler_rejected :
    (∀ (cur : Option SamplerD) (s : SamplerD), cur.isSome = true →
      set_sampler cur s false = (cur, .error .samplerAlreadySet)) ∧
    (∀ d : Dom, (Float.uniform (Float.init (some (.fin 1)) (some (.fin 10)))).2 = .ok d →
      (Float.loguniform d 10).1 = d ∧
      (Float.loguniform d 10).2 = .error .samplerAlreadySet) ∧
    (∀ d : Dom, (Float.uniform (Float.init (some (.fin 1)) (some (.fin 10)))).2 = .ok d →
      (Float.quantized d 1).2 = .ok ⟨d.data, some (.quantized .uniformF 1)⟩) := by
  have hunif : (Float.uniform (Float.init (some (.fin 1)) (some (.fin 10)))).2 =
      .ok ⟨.floatD (.fin 1) (.fin 10), some .uniformF⟩ := by
    norm_num [Float.uniform, Float.init, set_sampler, PyFloat.lt]
  refine ⟨?_, ?_, ?_⟩
  · intro cur s hcur
    simp [set_sampler, hcur]
  · intro d hd
    rw [hunif] at hd
    obtain rfl := Except.ok.inj hd
    constructor <;> norm_num [Float.loguniform, set_sampler, PyFloat.lt]
  · intro d hd
    rw [hunif] at hd
    obtain rfl := Except.ok.inj hd
    norm_num [Float.quantized, set_sampler, PyFloat.isFin, PyFloat.toQ, closeToInt,
      isclose, roundHalfEven, Dom.get_sampler]

/-- C8 witness: the three parts at the concrete uniform-attached Float(1, 10). -/
theorem C8_witness :
    set_sampler (some SamplerD.uniformF) (.logUniformF 10) false =
      (some SamplerD.uniformF, .error .samplerAlreadySet) ∧
    ((Float.loguniform ⟨.floatD (.fin 1) (.fin 10), some .uniformF⟩ 10).1 =
      ⟨.floatD (.fin 1) (.fin 10), some .uniformF⟩ ∧
     (Float.loguniform ⟨.floatD (.fin 1) (.fin 10), some .uniformF⟩ 10).2 =
      .error .samplerAlreadySet) ∧
    (Float.quantized ⟨.floatD (.fin 1) (.fin 10), some .uniformF⟩ 1).2 =
      .ok ⟨(⟨.floatD (.fin 1) (.fin 10), some .uniformF⟩ : Dom).data,
        some (.quantized .uniformF 1)⟩ :=
  ⟨C8_second_sampler_rejected.1 (some .uniformF) (.logUniformF 10) rfl,
   C8_second_sampler_rejected.2.1 ⟨.floatD (.fin 1) (.fin 10), some .uniformF⟩
     (by norm_num [Float.uniform, Float.init, set_sampler, PyFloat.lt]),
   C8_second_sampler_rejected.2.2 ⟨.floatD (.fin 1) (.fin 10), some .uniformF⟩
     (by norm_num [Float.uniform, Float.init, set_sampler, PyFloat.lt])⟩

/-- C9: every builder leaves the receiver domain (bounds, categories and
attached sampler) unchanged and, on success, returns a new domain with the
same data and the new sampler attached; sample() leaves the domain
unchanged as well. -/
theorem C9_builders_return_copy (d : Dom) (base mean sd q : ℚ) (size : Nat)
    (rng : Nat → ℚ) :
    (Float.uniform d).1 = d ∧ (Float.loguniform d base).1 = d ∧
    (Float.normal d mean sd).1 = d ∧ (Float.quantized d q).1 = d ∧
    (Integer.uniform d).1 = d ∧ (Integer.loguniform d base).1 = d ∧
    (Integer.quantized d q).1 = d ∧ (Categorical.uniform d).1 = d ∧
    (Dom.sampleM d size rng).1 = d ∧
    (∀ d', (Float.uniform d).2 = .ok d' →
      d'.data = d.data ∧ d'.sampler = some .uniformF) ∧
    (∀ d', (Float.loguniform d base).2 = .ok d' →
      d'.data = d.data ∧ d'.sampler = some (.logUniformF base)) ∧
    (∀ d', (Float.normal d mean sd).2 = .ok d' →
      d'.data = d.data ∧ d'.sampler = some (.normalF mean sd)) ∧
    (∀ d', (Float.quantized d q).2 = .ok d' →
      d'.data = d.data ∧ d'.sampler = some (.quantized d.get_sampler q)) := by
  obtain ⟨data, sampler⟩ := d
  refine ⟨?_, ?_, ?_, ?_, ?_, ?_, ?_, ?_, rfl, ?_, ?_, ?_, ?_⟩ <;>
    cases data <;>
    simp only [Float.uniform, Float.loguniform, Float.normal, Float.quantized,
      Integer.uniform, Integer.loguniform, Integer.quantized, Categorical.uniform,
      set_sampler] <;>
    first
      | rfl
      | (intro d' hd'; exact Except.noConfusion hd')
      | (intro d' hd'; exact hd'.elim)
      | (split_ifs <;>
          first
            | rfl
            | (intro d' hd'
               first
                 | exact Except.noConfusion hd'
                 | exact hd'.elim
                 | (obtain rfl := Except.ok.inj hd'
                    exact ⟨rfl, rfl⟩)))

/-- C9 witness: the success implications at a concrete bounded Float. -/
theorem C9_witness :
    ((⟨.floatD (.fin 1) (.fin 10), some .uniformF⟩ : Dom).data =
        (⟨.floatD (.fin 1) (.fin 10), none⟩ : Dom).data ∧
      (⟨.floatD (.fin 1) (.fin 10), some .uniformF⟩ : Dom).sampler =
        some SamplerD.uniformF) ∧
    ((⟨.floatD (.fin 1) (.fin 10), some (.logUniformF 10)⟩ : Dom).data =
        (⟨.floatD (.fin 1) (.fin 10), none⟩ : Dom).data ∧
      (⟨.floatD (.fin 1) (.fin 10), some (.logUniformF 10)⟩ : Dom).sampler =
        some (SamplerD.logUniformF 10)) ∧
    ((⟨.floatD (.fin 1) (.fin 10), some (.normalF 0 1)⟩ : Dom).data =
        (⟨.floatD (.fin 1) (.fin 10), none⟩ : Dom).data ∧
      (⟨.floatD (.fin 1) (.fin 10), some (.normalF 0 1)⟩ : Dom).sampler =
        some (SamplerD.normalF 0 1)) ∧
    ((⟨.floatD (.fin 1) (.fin 10), some (.quantized .uniformF 1)⟩ : Dom).data =
        (⟨.floatD (.fin 1) (.fin 10), none⟩ : Dom).data ∧
      (⟨.floatD (.fin 1) (.fin 10), some (.quantized .uniformF 1)⟩ : Dom).sampler =
        some (.quantized (⟨.floatD (.fin 1) (.fin 10), none⟩ : Dom).get_sampler 1)) :=
  ⟨(C9_builders_return_copy ⟨.floatD (.fin 1) (.fin 10), none⟩ 10 0 1 1 1
      (fun _ => 0)).2.2.2.2.2.2.2.2.2.1 _
      (by norm_num [Float.uniform, Float.init, set_sampler, PyFloat.lt]),
   (C9_builders_return_copy ⟨.floatD (.fin 1) (.fin 10), none⟩ 10 0 1 1 1
      (fun _ => 0)).2.2.2.2.2.2.2.2.2.2.1 _
      (by norm_num [Float.loguniform, Float.init, set_sampler, PyFloat.lt]),
   (C9_builders_return_copy ⟨.floatD (.fin 1) (.fin 10), none⟩ 10 0 1 1 1
      (fun _ => 0)).2.2.2.2.2.2.2.2.2.2.2.1 _
      (by norm_num [Float.normal, Float.init, set_sampler, PyFloat.lt]),
   (C9_builders_return_copy ⟨.floatD (.fin 1) (.fin 10), none⟩ 10 0 1 1 1
      (fun _ => 0)).2.2.2.2.2.2.2.2.2.2.2.2 _
      (by norm_num [Float.quantized, Float.init, set_sampler, PyFloat.isFin,
        PyFloat.toQ, closeToInt, isclose, roundHalfEven, Dom.get_sampler,
        Dom.default_sampler])⟩

end Flaml
